import Mathlib

set_option maxRecDepth 100000

/-!
# Verification of the declaration surface of `src/src/new21.h`

`new21.h` is a C header consisting solely of comments and twenty
`extern` function declarations (the OpenCL 2.0 / 2.1 additions used by
the `ocl` crate's FFI layer).  This development shallowly embeds the
header at two levels of granularity:

* a structured transcription: every top-level item of the file
  (comment line or function declaration) as a value of `CItem`, with
  each declaration's storage class, `CL_API_ENTRY` marker, return
  type, calling convention, name, parameter list (parameter names
  taken from the `/* ... */` comments in the source), trailing
  `CL_API_SUFFIX__VERSION_*` tags and (absent) body transcribed from
  the source text;
* a raw transcription: the 166 lines of the file as a `List String`.

All properties proved below are decidable statements about these two
transcriptions.
-/

/-- C types as they occur in `new21.h`.  Base OpenCL typedefs and
`size_t`/`void` are atoms; `ptr`, `constQ` and `arrayOf` build
derived types (`T *`, `const T`, `T []`).  The single function-pointer
type occurring in the file (the `CL_CALLBACK` parameter of
`clEnqueueSVMFree`, which has exactly four parameters) is transcribed
by the four-argument constructor `funPtrTy`. -/
inductive CType where
  | cl_context
  | cl_device_id
  | cl_command_queue
  | cl_mem
  | cl_kernel
  | cl_event
  | cl_sampler
  | cl_program
  | cl_int
  | cl_uint
  | cl_ulong
  | cl_bool
  | cl_mem_flags
  | cl_svm_mem_flags
  | cl_map_flags
  | cl_mem_migration_flags
  | cl_queue_properties
  | cl_pipe_properties
  | cl_sampler_properties
  | cl_pipe_info
  | cl_kernel_exec_info
  | cl_kernel_sub_group_info
  | size_t
  | voidTy
  | ptr (t : CType)
  | constQ (t : CType)
  | arrayOf (t : CType)
  | funPtrTy (ret a1 a2 a3 a4 : CType)
deriving DecidableEq, Repr

/-- A formal parameter: its name (from the `/* ... */` comment in the
source) and its type. -/
structure CParam where
  pname : String
  ty : CType
deriving DecidableEq, Repr

/-- C storage classes a top-level function declaration could carry. -/
inductive CStorage where
  | externSC
  | staticSC
  | plainSC
deriving DecidableEq, Repr

/-- Calling-convention annotation (`CL_API_CALL` in this file). -/
inductive CallConv where
  | clApiCall
  | otherCC
deriving DecidableEq, Repr

/-- `CL_API_SUFFIX__VERSION_*` availability tags of the OpenCL headers. -/
inductive VersionTag where
  | v1_0
  | v1_1
  | v1_2
  | v2_0
  | v2_1
  | v2_2
deriving DecidableEq, Repr

/-- Statement forms a C function body could contain.  No declaration in
`new21.h` has a body, so no value of this type occurs in the
transcription. -/
inductive CStmt where
  | exprStmt
  | ifStmt
  | loopStmt
  | returnStmt
deriving DecidableEq, Repr

/-- One C function declaration as written in `new21.h`: storage class,
presence of the `CL_API_ENTRY` marker, return type, calling
convention, function name, parameters, the list of trailing
`CL_API_SUFFIX__VERSION_*` tags, and the optional body (`none` means
the declaration ends in `;`). -/
structure CDecl where
  storage : CStorage
  apiEntry : Bool
  retType : CType
  callConv : CallConv
  name : String
  params : List CParam
  suffixTags : List VersionTag
  body : Option (List CStmt)
deriving DecidableEq, Repr

/-- A top-level item of the header: a comment line, a function
declaration, or one of the defining forms (type definitions, macro
definitions, variable declarations) that the file could contain. -/
inductive CItem where
  | commentLine (text : String)
  | funDecl (d : CDecl)
  | typedefDef (definedName : String) (ty : CType)
  | structDef (definedName : String) (fields : List CParam)
  | enumDef (definedName : String) (enumerators : List String)
  | macroDef (definedName : String) (replacement : String)
  | varDecl (vname : String) (ty : CType)
deriving DecidableEq, Repr

/-- `new21.h` lines 2-5. -/
def clSetDefaultDeviceCommandQueue : CDecl :=
  { storage := CStorage.externSC, apiEntry := true
    retType := CType.cl_int, callConv := CallConv.clApiCall
    name := "clSetDefaultDeviceCommandQueue"
    params :=
      [ { pname := "context", ty := CType.cl_context }
      , { pname := "device", ty := CType.cl_device_id }
      , { pname := "command_queue", ty := CType.cl_command_queue } ]
    suffixTags := [VersionTag.v2_1], body := none }

/-- `new21.h` lines 8-11. -/
def clGetDeviceAndHostTimer : CDecl :=
  { storage := CStorage.externSC, apiEntry := true
    retType := CType.cl_int, callConv := CallConv.clApiCall
    name := "clGetDeviceAndHostTimer"
    params :=
      [ { pname := "device", ty := CType.cl_device_id }
      , { pname := "device_timestamp", ty := CType.ptr CType.cl_ulong }
      , { pname := "host_timestamp", ty := CType.ptr CType.cl_ulong } ]
    suffixTags := [VersionTag.v2_1], body := none }

/-- `new21.h` lines 14-16. -/
def clGetHostTimer : CDecl :=
  { storage := CStorage.externSC, apiEntry := true
    retType := CType.cl_int, callConv := CallConv.clApiCall
    name := "clGetHostTimer"
    params :=
      [ { pname := "device", ty := CType.cl_device_id }
      , { pname := "host_timestamp", ty := CType.ptr CType.cl_ulong } ]
    suffixTags := [VersionTag.v2_1], body := none }

/-- `new21.h` lines 19-23. -/
def clCreateCommandQueueWithProperties : CDecl :=
  { storage := CStorage.externSC, apiEntry := true
    retType := CType.cl_command_queue, callConv := CallConv.clApiCall
    name := "clCreateCommandQueueWithProperties"
    params :=
      [ { pname := "context", ty := CType.cl_context }
      , { pname := "device", ty := CType.cl_device_id }
      , { pname := "properties", ty := CType.ptr (CType.constQ CType.cl_queue_properties) }
      , { pname := "errcode_ret", ty := CType.ptr CType.cl_int } ]
    suffixTags := [VersionTag.v2_0], body := none }

/-- `new21.h` lines 27-33. -/
def clCreatePipe : CDecl :=
  { storage := CStorage.externSC, apiEntry := true
    retType := CType.cl_mem, callConv := CallConv.clApiCall
    name := "clCreatePipe"
    params :=
      [ { pname := "context", ty := CType.cl_context }
      , { pname := "flags", ty := CType.cl_mem_flags }
      , { pname := "pipe_packet_size", ty := CType.cl_uint }
      , { pname := "pipe_max_packets", ty := CType.cl_uint }
      , { pname := "properties", ty := CType.ptr (CType.constQ CType.cl_pipe_properties) }
      , { pname := "errcode_ret", ty := CType.ptr CType.cl_int } ]
    suffixTags := [VersionTag.v2_0], body := none }

/-- `new21.h` lines 37-42. -/
def clGetPipeInfo : CDecl :=
  { storage := CStorage.externSC, apiEntry := true
    retType := CType.cl_int, callConv := CallConv.clApiCall
    name := "clGetPipeInfo"
    params :=
      [ { pname := "pipe", ty := CType.cl_mem }
      , { pname := "param_name", ty := CType.cl_pipe_info }
      , { pname := "param_value_size", ty := CType.size_t }
      , { pname := "param_value", ty := CType.ptr CType.voidTy }
      , { pname := "param_value_size_ret", ty := CType.ptr CType.size_t } ]
    suffixTags := [VersionTag.v2_0], body := none }

/-- `new21.h` lines 46-50. -/
def clSVMAlloc : CDecl :=
  { storage := CStorage.externSC, apiEntry := true
    retType := CType.ptr CType.voidTy, callConv := CallConv.clApiCall
    name := "clSVMAlloc"
    params :=
      [ { pname := "context", ty := CType.cl_context }
      , { pname := "flags", ty := CType.cl_svm_mem_flags }
      , { pname := "size", ty := CType.size_t }
      , { pname := "alignment", ty := CType.cl_uint } ]
    suffixTags := [VersionTag.v2_0], body := none }

/-- `new21.h` lines 53-55. -/
def clSVMFree : CDecl :=
  { storage := CStorage.externSC, apiEntry := true
    retType := CType.voidTy, callConv := CallConv.clApiCall
    name := "clSVMFree"
    params :=
      [ { pname := "context", ty := CType.cl_context }
      , { pname := "svm_pointer", ty := CType.ptr CType.voidTy } ]
    suffixTags := [VersionTag.v2_0], body := none }

/-- `new21.h` lines 59-62 (the source comment names the property-list
parameter `normalized_coords`). -/
def clCreateSamplerWithProperties : CDecl :=
  { storage := CStorage.externSC, apiEntry := true
    retType := CType.cl_sampler, callConv := CallConv.clApiCall
    name := "clCreateSamplerWithProperties"
    params :=
      [ { pname := "context", ty := CType.cl_context }
      , { pname := "normalized_coords", ty := CType.ptr (CType.constQ CType.cl_sampler_properties) }
      , { pname := "errcode_ret", ty := CType.ptr CType.cl_int } ]
    suffixTags := [VersionTag.v2_0], body := none }

/-- `new21.h` lines 65-69. -/
def clCreateProgramWithIL : CDecl :=
  { storage := CStorage.externSC, apiEntry := true
    retType := CType.cl_program, callConv := CallConv.clApiCall
    name := "clCreateProgramWithIL"
    params :=
      [ { pname := "context", ty := CType.cl_context }
      , { pname := "il", ty := CType.ptr (CType.constQ CType.voidTy) }
      , { pname := "length", ty := CType.size_t }
      , { pname := "errcode_ret", ty := CType.ptr CType.cl_int } ]
    suffixTags := [VersionTag.v2_1], body := none }

/-- `new21.h` lines 72-74. -/
def clCloneKernel : CDecl :=
  { storage := CStorage.externSC, apiEntry := true
    retType := CType.cl_kernel, callConv := CallConv.clApiCall
    name := "clCloneKernel"
    params :=
      [ { pname := "source_kernel", ty := CType.cl_kernel }
      , { pname := "errcode_ret", ty := CType.ptr CType.cl_int } ]
    suffixTags := [VersionTag.v2_1], body := none }

/-- `new21.h` lines 77-80. -/
def clSetKernelArgSVMPointer : CDecl :=
  { storage := CStorage.externSC, apiEntry := true
    retType := CType.cl_int, callConv := CallConv.clApiCall
    name := "clSetKernelArgSVMPointer"
    params :=
      [ { pname := "kernel", ty := CType.cl_kernel }
      , { pname := "arg_index", ty := CType.cl_uint }
      , { pname := "arg_value", ty := CType.ptr (CType.constQ CType.voidTy) } ]
    suffixTags := [VersionTag.v2_0], body := none }

/-- `new21.h` lines 83-87. -/
def clSetKernelExecInfo : CDecl :=
  { storage := CStorage.externSC, apiEntry := true
    retType := CType.cl_int, callConv := CallConv.clApiCall
    name := "clSetKernelExecInfo"
    params :=
      [ { pname := "kernel", ty := CType.cl_kernel }
      , { pname := "param_name", ty := CType.cl_kernel_exec_info }
      , { pname := "param_value_size", ty := CType.size_t }
      , { pname := "param_value", ty := CType.ptr (CType.constQ CType.voidTy) } ]
    suffixTags := [VersionTag.v2_0], body := none }

/-- `new21.h` lines 91-99. -/
def clGetKernelSubGroupInfo : CDecl :=
  { storage := CStorage.externSC, apiEntry := true
    retType := CType.cl_int, callConv := CallConv.clApiCall
    name := "clGetKernelSubGroupInfo"
    params :=
      [ { pname := "kernel", ty := CType.cl_kernel }
      , { pname := "device", ty := CType.cl_device_id }
      , { pname := "param_name", ty := CType.cl_kernel_sub_group_info }
      , { pname := "input_value_size", ty := CType.size_t }
      , { pname := "input_value", ty := CType.ptr (CType.constQ CType.voidTy) }
      , { pname := "param_value_size", ty := CType.size_t }
      , { pname := "param_value", ty := CType.ptr CType.voidTy }
      , { pname := "param_value_size_ret", ty := CType.ptr CType.size_t } ]
    suffixTags := [VersionTag.v2_1], body := none }

/-- `new21.h` lines 103-114.  The `pfn_free_func` parameter is the
`CL_CALLBACK` function pointer taking
`(cl_command_queue, cl_uint, void *[], void *)` and returning `void`. -/
def clEnqueueSVMFree : CDecl :=
  { storage := CStorage.externSC, apiEntry := true
    retType := CType.cl_int, callConv := CallConv.clApiCall
    name := "clEnqueueSVMFree"
    params :=
      [ { pname := "command_queue", ty := CType.cl_command_queue }
      , { pname := "num_svm_pointers", ty := CType.cl_uint }
      , { pname := "svm_pointers", ty := CType.arrayOf (CType.ptr CType.voidTy) }
      , { pname := "pfn_free_func"
        , ty := CType.funPtrTy CType.voidTy CType.cl_command_queue CType.cl_uint
            (CType.arrayOf (CType.ptr CType.voidTy)) (CType.ptr CType.voidTy) }
      , { pname := "user_data", ty := CType.ptr CType.voidTy }
      , { pname := "num_events_in_wait_list", ty := CType.cl_uint }
      , { pname := "event_wait_list", ty := CType.ptr (CType.constQ CType.cl_event) }
      , { pname := "event", ty := CType.ptr CType.cl_event } ]
    suffixTags := [VersionTag.v2_0], body := none }

/-- `new21.h` lines 117-125. -/
def clEnqueueSVMMemcpy : CDecl :=
  { storage := CStorage.externSC, apiEntry := true
    retType := CType.cl_int, callConv := CallConv.clApiCall
    name := "clEnqueueSVMMemcpy"
    params :=
      [ { pname := "command_queue", ty := CType.cl_command_queue }
      , { pname := "blocking_copy", ty := CType.cl_bool }
      , { pname := "dst_ptr", ty := CType.ptr CType.voidTy }
      , { pname := "src_ptr", ty := CType.ptr (CType.constQ CType.voidTy) }
      , { pname := "size", ty := CType.size_t }
      , { pname := "num_events_in_wait_list", ty := CType.cl_uint }
      , { pname := "event_wait_list", ty := CType.ptr (CType.constQ CType.cl_event) }
      , { pname := "event", ty := CType.ptr CType.cl_event } ]
    suffixTags := [VersionTag.v2_0], body := none }

/-- `new21.h` lines 128-136. -/
def clEnqueueSVMMemFill : CDecl :=
  { storage := CStorage.externSC, apiEntry := true
    retType := CType.cl_int, callConv := CallConv.clApiCall
    name := "clEnqueueSVMMemFill"
    params :=
      [ { pname := "command_queue", ty := CType.cl_command_queue }
      , { pname := "svm_ptr", ty := CType.ptr CType.voidTy }
      , { pname := "pattern", ty := CType.ptr (CType.constQ CType.voidTy) }
      , { pname := "pattern_size", ty := CType.size_t }
      , { pname := "size", ty := CType.size_t }
      , { pname := "num_events_in_wait_list", ty := CType.cl_uint }
      , { pname := "event_wait_list", ty := CType.ptr (CType.constQ CType.cl_event) }
      , { pname := "event", ty := CType.ptr CType.cl_event } ]
    suffixTags := [VersionTag.v2_0], body := none }

/-- `new21.h` lines 139-147. -/
def clEnqueueSVMMap : CDecl :=
  { storage := CStorage.externSC, apiEntry := true
    retType := CType.cl_int, callConv := CallConv.clApiCall
    name := "clEnqueueSVMMap"
    params :=
      [ { pname := "command_queue", ty := CType.cl_command_queue }
      , { pname := "blocking_map", ty := CType.cl_bool }
      , { pname := "flags", ty := CType.cl_map_flags }
      , { pname := "svm_ptr", ty := CType.ptr CType.voidTy }
      , { pname := "size", ty := CType.size_t }
      , { pname := "num_events_in_wait_list", ty := CType.cl_uint }
      , { pname := "event_wait_list", ty := CType.ptr (CType.constQ CType.cl_event) }
      , { pname := "event", ty := CType.ptr CType.cl_event } ]
    suffixTags := [VersionTag.v2_0], body := none }

/-- `new21.h` lines 150-155. -/
def clEnqueueSVMUnmap : CDecl :=
  { storage := CStorage.externSC, apiEntry := true
    retType := CType.cl_int, callConv := CallConv.clApiCall
    name := "clEnqueueSVMUnmap"
    params :=
      [ { pname := "command_queue", ty := CType.cl_command_queue }
      , { pname := "svm_ptr", ty := CType.ptr CType.voidTy }
      , { pname := "num_events_in_wait_list", ty := CType.cl_uint }
      , { pname := "event_wait_list", ty := CType.ptr (CType.constQ CType.cl_event) }
      , { pname := "event", ty := CType.ptr CType.cl_event } ]
    suffixTags := [VersionTag.v2_0], body := none }

/-- `new21.h` lines 158-166. -/
def clEnqueueSVMMigrateMem : CDecl :=
  { storage := CStorage.externSC, apiEntry := true
    retType := CType.cl_int, callConv := CallConv.clApiCall
    name := "clEnqueueSVMMigrateMem"
    params :=
      [ { pname := "command_queue", ty := CType.cl_command_queue }
      , { pname := "num_svm_pointers", ty := CType.cl_uint }
      , { pname := "svm_pointers", ty := CType.ptr (CType.ptr (CType.constQ CType.voidTy)) }
      , { pname := "sizes", ty := CType.ptr (CType.constQ CType.size_t) }
      , { pname := "flags", ty := CType.cl_mem_migration_flags }
      , { pname := "num_events_in_wait_list", ty := CType.cl_uint }
      , { pname := "event_wait_list", ty := CType.ptr (CType.constQ CType.cl_event) }
      , { pname := "event", ty := CType.ptr CType.cl_event } ]
    suffixTags := [VersionTag.v2_1], body := none }
/-- The file src/src/new21.h as an ordered list of top-level items:
comment lines and the twenty extern function declarations, in source order. -/
def new21File : List CItem :=
  [ CItem.commentLine "############################### NEW 2.1 #################################"
  , CItem.funDecl clSetDefaultDeviceCommandQueue
  , CItem.commentLine "############################### NEW 2.1 #################################"
  , CItem.funDecl clGetDeviceAndHostTimer
  , CItem.commentLine "############################### NEW 2.1 #################################"
  , CItem.funDecl clGetHostTimer
  , CItem.commentLine "############################### NEW 2.0 #################################"
  , CItem.funDecl clCreateCommandQueueWithProperties
  , CItem.commentLine "############################### NEW 2.0 #################################"
  , CItem.funDecl clCreatePipe
  , CItem.commentLine "############################### NEW 2.0 #################################"
  , CItem.funDecl clGetPipeInfo
  , CItem.commentLine " SVM Allocation APIs"
  , CItem.commentLine "############################### NEW 2.0 #################################"
  , CItem.funDecl clSVMAlloc
  , CItem.commentLine "############################### NEW 2.0 #################################"
  , CItem.funDecl clSVMFree
  , CItem.commentLine "############################### NEW 2.0 #################################"
  , CItem.funDecl clCreateSamplerWithProperties
  , CItem.commentLine "############################### NEW 2.1 #################################"
  , CItem.funDecl clCreateProgramWithIL
  , CItem.commentLine "############################### NEW 2.1 #################################"
  , CItem.funDecl clCloneKernel
  , CItem.commentLine "############################### NEW 2.0 #################################"
  , CItem.funDecl clSetKernelArgSVMPointer
  , CItem.commentLine "############################### NEW 2.0 #################################"
  , CItem.funDecl clSetKernelExecInfo
  , CItem.commentLine "############################### NEW 2.1 #################################"
  , CItem.funDecl clGetKernelSubGroupInfo
  , CItem.commentLine "############################### NEW 2.0 #################################"
  , CItem.funDecl clEnqueueSVMFree
  , CItem.commentLine "############################### NEW 2.0 #################################"
  , CItem.funDecl clEnqueueSVMMemcpy
  , CItem.commentLine "############################### NEW 2.0 #################################"
  , CItem.funDecl clEnqueueSVMMemFill
  , CItem.commentLine "############################### NEW 2.0 #################################"
  , CItem.funDecl clEnqueueSVMMap
  , CItem.commentLine "############################### NEW 2.0 #################################"
  , CItem.funDecl clEnqueueSVMUnmap
  , CItem.commentLine "############################### NEW 2.1 #################################"
  , CItem.funDecl clEnqueueSVMMigrateMem
  ]
/-- Raw line-by-line transcription of the 166 lines of src/src/new21.h. -/
def new21Lines : List String :=
  [ "    //############################### NEW 2.1 #################################"
  , "    extern CL_API_ENTRY cl_int CL_API_CALL"
  , "    clSetDefaultDeviceCommandQueue(cl_context           /* context */,"
  , "                                   cl_device_id         /* device */,"
  , "                                   cl_command_queue     /* command_queue */) CL_API_SUFFIX__VERSION_2_1;"
  , ""
  , "    //############################### NEW 2.1 #################################"
  , "    extern CL_API_ENTRY cl_int CL_API_CALL"
  , "    clGetDeviceAndHostTimer(cl_device_id    /* device */,"
  , "                            cl_ulong*       /* device_timestamp */,"
  , "                            cl_ulong*       /* host_timestamp */) CL_API_SUFFIX__VERSION_2_1;"
  , ""
  , "    //############################### NEW 2.1 #################################"
  , "    extern CL_API_ENTRY cl_int CL_API_CALL"
  , "    clGetHostTimer(cl_device_id /* device */,"
  , "                   cl_ulong *   /* host_timestamp */)  CL_API_SUFFIX__VERSION_2_1;"
  , ""
  , "    //############################### NEW 2.0 #################################"
  , "    extern CL_API_ENTRY cl_command_queue CL_API_CALL"
  , "    clCreateCommandQueueWithProperties(cl_context               /* context */,"
  , "                                       cl_device_id             /* device */,"
  , "                                       const cl_queue_properties *    /* properties */,"
  , "                                       cl_int *                 /* errcode_ret */) CL_API_SUFFIX__VERSION_2_0;"
  , ""
  , ""
  , "    //############################### NEW 2.0 #################################"
  , "    extern CL_API_ENTRY cl_mem CL_API_CALL"
  , "    clCreatePipe(cl_context                 /* context */,"
  , "                 cl_mem_flags               /* flags */,"
  , "                 cl_uint                    /* pipe_packet_size */,"
  , "                 cl_uint                    /* pipe_max_packets */,"
  , "                 const cl_pipe_properties * /* properties */,"
  , "                 cl_int *                   /* errcode_ret */) CL_API_SUFFIX__VERSION_2_0;"
  , ""
  , ""
  , "    //############################### NEW 2.0 #################################"
  , "    extern CL_API_ENTRY cl_int CL_API_CALL"
  , "    clGetPipeInfo(cl_mem           /* pipe */,"
  , "                  cl_pipe_info     /* param_name */,"
  , "                  size_t           /* param_value_size */,"
  , "                  void *           /* param_value */,"
  , "                  size_t *         /* param_value_size_ret */) CL_API_SUFFIX__VERSION_2_0;"
  , ""
  , "    // SVM Allocation APIs "
  , "    //############################### NEW 2.0 #################################"
  , "    extern CL_API_ENTRY void * CL_API_CALL"
  , "    clSVMAlloc(cl_context       /* context */,"
  , "               cl_svm_mem_flags /* flags */,"
  , "               size_t           /* size */,"
  , "               cl_uint          /* alignment */) CL_API_SUFFIX__VERSION_2_0;"
  , ""
  , "    //############################### NEW 2.0 #################################"
  , "    extern CL_API_ENTRY void CL_API_CALL"
  , "    clSVMFree(cl_context        /* context */,"
  , "              void *            /* svm_pointer */) CL_API_SUFFIX__VERSION_2_0;"
  , ""
  , ""
  , "    //############################### NEW 2.0 #################################"
  , "    extern CL_API_ENTRY cl_sampler CL_API_CALL"
  , "    clCreateSamplerWithProperties(cl_context                     /* context */,"
  , "                                  const cl_sampler_properties *  /* normalized_coords */,"
  , "                                  cl_int *                       /* errcode_ret */) CL_API_SUFFIX__VERSION_2_0;"
  , ""
  , "    //############################### NEW 2.1 #################################"
  , "    extern CL_API_ENTRY cl_program CL_API_CALL"
  , "    clCreateProgramWithIL(cl_context    /* context */,"
  , "                         const void*    /* il */,"
  , "                         size_t         /* length */,"
  , "                         cl_int*        /* errcode_ret */) CL_API_SUFFIX__VERSION_2_1;"
  , ""
  , "    //############################### NEW 2.1 #################################"
  , "    extern CL_API_ENTRY cl_kernel CL_API_CALL"
  , "    clCloneKernel(cl_kernel     /* source_kernel */,"
  , "                  cl_int*       /* errcode_ret */) CL_API_SUFFIX__VERSION_2_1;"
  , ""
  , "    //############################### NEW 2.0 #################################"
  , "    extern CL_API_ENTRY cl_int CL_API_CALL"
  , "    clSetKernelArgSVMPointer(cl_kernel    /* kernel */,"
  , "                             cl_uint      /* arg_index */,"
  , "                             const void * /* arg_value */) CL_API_SUFFIX__VERSION_2_0;"
  , ""
  , "    //############################### NEW 2.0 #################################"
  , "    extern CL_API_ENTRY cl_int CL_API_CALL"
  , "    clSetKernelExecInfo(cl_kernel            /* kernel */,"
  , "                        cl_kernel_exec_info  /* param_name */,"
  , "                        size_t               /* param_value_size */,"
  , "                        const void *         /* param_value */) CL_API_SUFFIX__VERSION_2_0;"
  , ""
  , ""
  , "    //############################### NEW 2.1 #################################"
  , "    extern CL_API_ENTRY cl_int CL_API_CALL"
  , "    clGetKernelSubGroupInfo(cl_kernel                   /* kernel */,"
  , "                            cl_device_id                /* device */,"
  , "                            cl_kernel_sub_group_info    /* param_name */,"
  , "                            size_t                      /* input_value_size */,"
  , "                            const void*                 /*input_value */,"
  , "                            size_t                      /* param_value_size */,"
  , "                            void*                       /* param_value */,"
  , "                            size_t*                     /* param_value_size_ret */ ) CL_API_SUFFIX__VERSION_2_1;"
  , ""
  , ""
  , "    //############################### NEW 2.0 #################################"
  , "    extern CL_API_ENTRY cl_int CL_API_CALL"
  , "    clEnqueueSVMFree(cl_command_queue  /* command_queue */,"
  , "                     cl_uint           /* num_svm_pointers */,"
  , "                     void *[]          /* svm_pointers[] */,"
  , "                     void (CL_CALLBACK * /*pfn_free_func*/)(cl_command_queue /* queue */,"
  , "                                                            cl_uint          /* num_svm_pointers */,"
  , "                                                            void *[]         /* svm_pointers[] */,"
  , "                                                            void *           /* user_data */),"
  , "                     void *            /* user_data */,"
  , "                     cl_uint           /* num_events_in_wait_list */,"
  , "                     const cl_event *  /* event_wait_list */,"
  , "                     cl_event *        /* event */) CL_API_SUFFIX__VERSION_2_0;"
  , ""
  , "    //############################### NEW 2.0 #################################"
  , "    extern CL_API_ENTRY cl_int CL_API_CALL"
  , "    clEnqueueSVMMemcpy(cl_command_queue  /* command_queue */,"
  , "                       cl_bool           /* blocking_copy */,"
  , "                       void *            /* dst_ptr */,"
  , "                       const void *      /* src_ptr */,"
  , "                       size_t            /* size */,"
  , "                       cl_uint           /* num_events_in_wait_list */,"
  , "                       const cl_event *  /* event_wait_list */,"
  , "                       cl_event *        /* event */) CL_API_SUFFIX__VERSION_2_0;"
  , ""
  , "    //############################### NEW 2.0 #################################"
  , "    extern CL_API_ENTRY cl_int CL_API_CALL"
  , "    clEnqueueSVMMemFill(cl_command_queue  /* command_queue */,"
  , "                        void *            /* svm_ptr */,"
  , "                        const void *      /* pattern */,"
  , "                        size_t            /* pattern_size */,"
  , "                        size_t            /* size */,"
  , "                        cl_uint           /* num_events_in_wait_list */,"
  , "                        const cl_event *  /* event_wait_list */,"
  , "                        cl_event *        /* event */) CL_API_SUFFIX__VERSION_2_0;"
  , ""
  , "    //############################### NEW 2.0 #################################"
  , "    extern CL_API_ENTRY cl_int CL_API_CALL"
  , "    clEnqueueSVMMap(cl_command_queue  /* command_queue */,"
  , "                    cl_bool           /* blocking_map */,"
  , "                    cl_map_flags      /* flags */,"
  , "                    void *            /* svm_ptr */,"
  , "                    size_t            /* size */,"
  , "                    cl_uint           /* num_events_in_wait_list */,"
  , "                    const cl_event *  /* event_wait_list */,"
  , "                    cl_event *        /* event */) CL_API_SUFFIX__VERSION_2_0;"
  , ""
  , "    //############################### NEW 2.0 #################################"
  , "    extern CL_API_ENTRY cl_int CL_API_CALL"
  , "    clEnqueueSVMUnmap(cl_command_queue  /* command_queue */,"
  , "                      void *            /* svm_ptr */,"
  , "                      cl_uint           /* num_events_in_wait_list */,"
  , "                      const cl_event *  /* event_wait_list */,"
  , "                      cl_event *        /* event */) CL_API_SUFFIX__VERSION_2_0;"
  , ""
  , "    //############################### NEW 2.1 #################################"
  , "    extern CL_API_ENTRY cl_int CL_API_CALL"
  , "    clEnqueueSVMMigrateMem(cl_command_queue         /* command_queue */,"
  , "                           cl_uint                  /* num_svm_pointers */,"
  , "                           const void **            /* svm_pointers */,"
  , "                           const size_t *           /* sizes */,"
  , "                           cl_mem_migration_flags   /* flags */,"
  , "                           cl_uint                  /* num_events_in_wait_list */,"
  , "                           const cl_event *         /* event_wait_list */,"
  , "                           cl_event *               /* event */) CL_API_SUFFIX__VERSION_2_1;"
  ]

/-- The function declarations of `new21.h`, in source order. -/
def new21Decls : List CDecl :=
  new21File.filterMap fun i =>
    match i with
    | CItem.funDecl d => some d
    | _ => none

/-- The declared function names, in source order. -/
def declNames : List String := new21Decls.map CDecl.name

/-- The return type is the status-code type `cl_int`. -/
def isClInt : CType → Bool
  | CType.cl_int => true
  | _ => false

/-- The type is `cl_int *` (the shape of the `errcode_ret` out-parameter). -/
def isPtrClInt : CType → Bool
  | CType.ptr CType.cl_int => true
  | _ => false

/-- Opaque object-handle types of the API (driver-managed references). -/
def isObjectHandleType : CType → Bool
  | CType.cl_context => true
  | CType.cl_device_id => true
  | CType.cl_command_queue => true
  | CType.cl_mem => true
  | CType.cl_kernel => true
  | CType.cl_event => true
  | CType.cl_sampler => true
  | CType.cl_program => true
  | _ => false

/-- The declaration takes a `cl_int *` parameter named `errcode_ret`. -/
def hasErrcodeRetParam (d : CDecl) : Bool :=
  d.params.any fun p => p.pname == "errcode_ret" && isPtrClInt p.ty

/-- The declaration's last parameter is `cl_int * errcode_ret`. -/
def lastParamIsErrcodeRet (d : CDecl) : Bool :=
  match d.params.getLast? with
  | some p => p.pname == "errcode_ret" && isPtrClInt p.ty
  | none => false

/-- A declaration reserves a status/error channel when it returns
`cl_int` or takes a `cl_int * errcode_ret` out-parameter. -/
def hasErrorChannel (d : CDecl) : Bool :=
  isClInt d.retType || hasErrcodeRetParam d

/-- Names of types defined (not merely mentioned) by the file's items. -/
def definedTypeNames (file : List CItem) : List String :=
  file.filterMap fun i =>
    match i with
    | CItem.typedefDef n _ => some n
    | CItem.structDef n _ => some n
    | CItem.enumDef n _ => some n
    | _ => none

/-- Names of macros defined by the file's items (error codes in the
OpenCL headers are macro constants). -/
def definedMacroNames (file : List CItem) : List String :=
  file.filterMap fun i =>
    match i with
    | CItem.macroDef n _ => some n
    | _ => none

/-- An item is a comment line or a bodiless `extern` function
declaration (no typedef/struct/enum/macro/variable item). -/
def isCommentOrPureDecl : CItem → Bool
  | CItem.commentLine _ => true
  | CItem.funDecl d =>
      decide (d.storage = CStorage.externSC) && decide (d.body = none)
  | _ => false

/-- Does the type mention `base` anywhere inside it? -/
def mentionsType (base : CType) : CType → Bool
  | CType.ptr t => decide (CType.ptr t = base) || mentionsType base t
  | CType.constQ t => decide (CType.constQ t = base) || mentionsType base t
  | CType.arrayOf t => decide (CType.arrayOf t = base) || mentionsType base t
  | CType.funPtrTy r a1 a2 a3 a4 =>
      decide (CType.funPtrTy r a1 a2 a3 a4 = base) || mentionsType base r ||
      mentionsType base a1 || mentionsType base a2 ||
      mentionsType base a3 || mentionsType base a4
  | t => decide (t = base)

/-- The declaration mentions `base` in return or parameter position. -/
def mentionsInSignature (d : CDecl) (base : CType) : Bool :=
  mentionsType base d.retType || d.params.any fun p => mentionsType base p.ty

/-- The opening curly brace character. -/
def openBraceChar : Char := '\x7b'

/-- The closing curly brace character. -/
def closeBraceChar : Char := '\x7d'

/-- The character `c` occurs in the list. -/
def charListHas (c : Char) : List Char → Bool
  | [] => false
  | x :: xs => x == c || charListHas c xs

/-- The first list is a prefix of the second. -/
def charsPrefix : List Char → List Char → Bool
  | [], _ => true
  | _ :: _, [] => false
  | x :: xs, y :: ys => x == y && charsPrefix xs ys

/-- Number of positions of the second list at which `pat` occurs. -/
def countOccurs (pat : List Char) : List Char → Nat
  | [] => 0
  | x :: xs => (if charsPrefix pat (x :: xs) then 1 else 0) + countOccurs pat xs

/-- The line contains a curly brace (the start or end of a C block). -/
def lineHasBrace (l : String) : Bool :=
  charListHas openBraceChar l.data || charListHas closeBraceChar l.data

/-- `sub` occurs as a substring of `l`. -/
def containsSubstring (sub l : String) : Bool :=
  countOccurs sub.data l.data != 0

/-- Number of occurrences of `sub` in `l`. -/
def occurrencesIn (sub l : String) : Nat :=
  countOccurs sub.data l.data

/-- Total number of occurrences of `sub` across the given lines. -/
def totalOccurrences (sub : String) (ls : List String) : Nat :=
  (ls.map (occurrencesIn sub)).sum

/-- `pat` is a prefix of the string `n`. -/
def strStarts (pat n : String) : Bool :=
  charsPrefix pat.data n.data

/-- The entry points named by the five advertised functional groups:
queue creation, shared-virtual-memory management, kernel cloning,
sub-group introspection, and the asynchronous `clEnqueueSVM*` family. -/
def advertisedGroupNames : List String :=
  [ "clCreateCommandQueueWithProperties"
  , "clSVMAlloc", "clSVMFree", "clSetKernelArgSVMPointer"
  , "clCloneKernel"
  , "clGetKernelSubGroupInfo"
  , "clEnqueueSVMFree", "clEnqueueSVMMemcpy", "clEnqueueSVMMemFill"
  , "clEnqueueSVMMap", "clEnqueueSVMUnmap", "clEnqueueSVMMigrateMem" ]

/-- C1: every function declared in the file carries exactly one
availability tag, and that tag is `CL_API_SUFFIX__VERSION_2_0` or
`CL_API_SUFFIX__VERSION_2_1`.  The raw text agrees: the 20 `extern`
declarations carry 13 occurrences of the 2.0 suffix and 7 of the 2.1
suffix, 20 in total. -/
theorem every_decl_tagged_once_with_v2_0_or_v2_1 :
    new21Decls.all
      (fun d => decide (d.suffixTags = [VersionTag.v2_0]) ||
        decide (d.suffixTags = [VersionTag.v2_1])) = true ∧
    new21Decls.length = 20 ∧
    totalOccurrences "extern" new21Lines = 20 ∧
    totalOccurrences "CL_API_SUFFIX__VERSION_2_0" new21Lines = 13 ∧
    totalOccurrences "CL_API_SUFFIX__VERSION_2_1" new21Lines = 7 := by
  refine ⟨by decide, by decide, by decide, by decide, by decide⟩

/-- C2, counterexample: the file contains exactly 20 extern entry-point
declarations, not 16 (nor within ±3 of 16). -/
theorem decl_count_is_twenty_not_sixteen :
    new21Decls.length = 20 ∧ new21Decls.length ≠ 16 ∧
    ¬ (new21Decls.length ≤ 19) := by decide

/-- C2, amended: the artifact is a flat list of exactly 20 function
declarations with no composition, no dependency graph and no internal
state: every top-level item is a comment line or a bodiless `extern`
function declaration (in particular no variable, typedef, struct, enum
or macro item, and no body that could reference another declaration). -/
theorem flat_list_of_twenty_declarations :
    new21Decls.length = 20 ∧
    new21File.all isCommentOrPureDecl = true ∧
    new21Decls.all (fun d => decide (d.body = none)) = true := by
  refine ⟨by decide, by decide, by decide⟩

/-- C3: most declared operations reserve a status/error channel — 18 of
the 20 declarations either return `cl_int` or take a
`cl_int * errcode_ret` out-parameter — and the file defines no error
codes itself: it contains no macro or enum definition and no line of it
contains a macro-definition directive. -/
theorem most_decls_reserve_error_channel :
    2 * (new21Decls.filter hasErrorChannel).length > new21Decls.length ∧
    (new21Decls.filter hasErrorChannel).length = 18 ∧
    new21Decls.length = 20 ∧
    definedMacroNames new21File = [] ∧
    definedTypeNames new21File = [] ∧
    new21Lines.all (fun l => !(containsSubstring "#define" l)) = true := by
  refine ⟨by decide, by decide, by decide, by decide, by decide, by decide⟩

/-- C4, counterexample: `clCreatePipe` is a declared entry point that
belongs to none of the five advertised functional groups, so the
declared entry points do not cover exactly those groups. -/
theorem clCreatePipe_outside_advertised_groups :
    declNames.contains "clCreatePipe" = true ∧
    advertisedGroupNames.contains "clCreatePipe" = false ∧
    declNames.all (fun n => advertisedGroupNames.contains n) = false := by
  refine ⟨by decide, by decide, by decide⟩

/-- C4, amended: the file declares every advertised operation — the
queue-creation operation, the three SVM-management operations, the
kernel-cloning operation, the sub-group introspection operation, and an
asynchronous `clEnqueueSVM*` family consisting of exactly the six
enqueue operations — but it also declares entry points outside these
groups. -/
theorem advertised_groups_all_declared_among_others :
    advertisedGroupNames.all (fun n => declNames.contains n) = true ∧
    declNames.filter (strStarts "clEnqueueSVM") =
      [ "clEnqueueSVMFree", "clEnqueueSVMMemcpy", "clEnqueueSVMMemFill"
      , "clEnqueueSVMMap", "clEnqueueSVMUnmap", "clEnqueueSVMMigrateMem" ] ∧
    declNames.any (fun n => !(advertisedGroupNames.contains n)) = true := by
  refine ⟨by decide, by decide, by decide⟩

/-- C5: the file is declarations only, with no executable behavior:
every top-level item is a comment or an `extern` function declaration
without a body, and no line of the file contains a curly brace (so no
function body, data-structure definition or control flow appears). -/
theorem declarations_only_no_executable_behavior :
    new21File.all isCommentOrPureDecl = true ∧
    new21Decls.all
      (fun d => decide (d.storage = CStorage.externSC) &&
        decide (d.body = none) && d.apiEntry) = true ∧
    new21Lines.all (fun l => !(lineHasBrace l)) = true := by
  refine ⟨by decide, by decide, by decide⟩

/-- C6: the file defines or owns no types — it contains no typedef,
struct or enum definition — and each referenced handle or property-list
type occurs in parameter or return position of some declaration. -/
theorem no_type_definitions_types_only_mentioned :
    definedTypeNames new21File = [] ∧
    [ CType.cl_context, CType.cl_device_id, CType.cl_command_queue
    , CType.cl_mem, CType.cl_kernel, CType.cl_event, CType.cl_sampler
    , CType.cl_program, CType.cl_queue_properties, CType.cl_pipe_properties
    , CType.cl_sampler_properties ].all
      (fun b => new21Decls.any (fun d => mentionsInSignature d b)) = true := by
  refine ⟨by decide, by decide⟩

/-- C7: the file is 166 lines long (roughly 167), and zero of those
lines contain implementable logic: no line contains a curly brace and
every declaration's body is absent, so a faithful reproduction is a
similarly sized re-declaration of the same contract. -/
theorem file_is_166_lines_with_zero_logic :
    new21Lines.length = 166 ∧
    ((new21Lines.length : Int) - 167).natAbs ≤ 5 ∧
    (new21Lines.filter lineHasBrace).length = 0 ∧
    new21Decls.all (fun d => decide (d.body = none)) = true := by
  refine ⟨by decide, by decide, by decide, by decide⟩

/-- C8: the two error-reporting mechanisms are mutually exclusive and
determined by the return type: the declarations returning an object
handle are exactly the five creation/clone operations, each such
declaration has `cl_int * errcode_ret` as its last parameter, and no
`cl_int`-returning declaration takes an `errcode_ret` parameter. -/
theorem handle_return_iff_errcode_ret_param :
    (new21Decls.filter (fun d => isObjectHandleType d.retType)).map CDecl.name =
      [ "clCreateCommandQueueWithProperties", "clCreatePipe"
      , "clCreateSamplerWithProperties", "clCreateProgramWithIL"
      , "clCloneKernel" ] ∧
    new21Decls.all
      (fun d => isObjectHandleType d.retType == lastParamIsErrcodeRet d) = true ∧
    new21Decls.all
      (fun d => !(isClInt d.retType && hasErrcodeRetParam d)) = true := by
  refine ⟨by decide, by decide, by decide⟩

/-- C9: `clSVMAlloc` and `clSVMFree` are the only declared operations
with no error-reporting channel: `clSVMAlloc` returns `void *` and has
no `errcode_ret` parameter, `clSVMFree` returns `void`, and every other
declaration returns `cl_int` or takes a `cl_int * errcode_ret`. -/
theorem svm_alloc_and_free_only_ops_without_error_channel :
    (new21Decls.filter (fun d => !(hasErrorChannel d))).map CDecl.name =
      ["clSVMAlloc", "clSVMFree"] ∧
    clSVMAlloc.retType = CType.ptr CType.voidTy ∧
    hasErrcodeRetParam clSVMAlloc = false ∧
    clSVMFree.retType = CType.voidTy ∧
    new21Decls.all
      (fun d => decide (d.name = "clSVMAlloc") || decide (d.name = "clSVMFree") ||
        hasErrorChannel d) = true := by
  refine ⟨by decide, by decide, by decide, by decide, by decide⟩
